import Mathlib

/-!
Shallow embedding of the ExplicaSurf backend (src/backend/app.py) in Lean 4.

Conventions of the embedding:
* JSON numbers are modelled as rationals (`ℚ`); Python `None` / a missing
  dictionary key is modelled with `Option`.
* A Python dictionary whose keys are fixed field names is modelled as a
  structure; a dictionary used as an open mapping (the Stormglass
  model-name → value mappings, the TTL cache store) is modelled as an
  association list, resp. a function to `Option`.
* Instants (`datetime`, `time.time()`) are modelled as integers; the parsing
  of ISO strings into instants is modelled by carrying the parsed value
  alongside the raw string.
* Fields of the merged record are `Option (Option ℚ)`: the outer layer is
  "the key is present in the dict", the inner layer is "the value is not None".
-/

namespace ExplicaSurf

/-- Generic JSON-ish value, as seen by the untyped parts of the backend
(the per-model mappings inside a Stormglass hour, the raw OpenWeather
wind-speed field).  `num` covers Python `int`/`float`; everything that is not
a number and not a dictionary is collapsed into `str`/`other`. -/
inductive JVal where
  | num (q : ℚ)
  | str (s : String)
  | dict (d : List (String × JVal))
  | other

/-- Python `k in d` / `d[k]` on a dict modelled as an insertion-ordered
association list (keys of a real Python dict are unique). -/
def lookupKey (d : List (String × JVal)) (k : String) : Option JVal :=
  (d.find? (fun kv => kv.1 == k)).map Prod.snd

/-- The fixed model-preference order used by `choose` in
`pick_stormglass_point`. -/
def prefModels : List String := ["noaa", "dwd", "meteo", "icon", "sg"]

/-- First loop of `choose`: walk the preference list; return the value of the
first preferred model name that is present with a numeric value. -/
def choosePref (d : List (String × JVal)) : List String → Option ℚ
  | [] => none
  | p :: ps =>
    match lookupKey d p with
    | some (JVal.num q) => some q
    | _ => choosePref d ps

/-- Second loop of `choose`: first numeric value in insertion order. -/
def firstNumVal : List (String × JVal) → Option ℚ
  | [] => none
  | (_, JVal.num q) :: _ => some q
  | _ :: rest => firstNumVal rest

/-- `choose` from `pick_stormglass_point`: on a non-dict input return `None`;
otherwise try the preferred models in order, then fall back to the first
numeric value of the mapping, then `None`. -/
def choose : JVal → Option ℚ
  | JVal.dict d =>
    match choosePref d prefModels with
    | some q => some q
    | none => firstNumVal d
  | _ => none

/-- Modelled from the spec: "for each quantity, resolves a single scalar by
checking a fixed preference order of model names and falling back to first
available numeric value in the mapping if none of the preferred models are
present" (spec 4.2).  Kept separate from `choose` (which is translated from
the source) so the two can be compared. -/
def chooseSpecModel (d : List (String × JVal)) : Option ℚ :=
  match prefModels.findSome? (fun p =>
      match lookupKey d p with
      | some (JVal.num q) => some q
      | _ => none) with
  | some q => some q
  | none =>
    (d.map Prod.snd).findSome? (fun v =>
      match v with
      | JVal.num q => some q
      | _ => none)

/-! ### TTL cache -/

/-- `TTLCache`: ttl plus a store mapping keys to (insertion time, payload).
`time.time()` is modelled by passing the current instant explicitly. -/
structure TTLCache (α : Type) where
  ttl : Int
  store : String → Option (Int × α)

/-- `TTLCache.__init__`: empty store. -/
def TTLCache.init (α : Type) (ttl_seconds : Int) : TTLCache α :=
  { ttl := ttl_seconds, store := fun _ => none }

/-- `TTLCache.get`: missing key gives `None`; an entry older than `ttl` is
popped from the store and gives `None`; otherwise the stored value.  The
Python method mutates `self`, so the embedding returns the updated cache
alongside the result. -/
def TTLCache.get {α : Type} (c : TTLCache α) (key : String) (now : Int) :
    Option α × TTLCache α :=
  match c.store key with
  | none => (none, c)
  | some (ts, value) =>
    if now - ts > c.ttl then
      (none, { c with store := fun k => if k = key then none else c.store k })
    else
      (some value, c)

/-- `TTLCache.set`: always overwrite with the fresh timestamp. -/
def TTLCache.set {α : Type} (c : TTLCache α) (key : String) (value : α)
    (now : Int) : TTLCache α :=
  { c with store := fun k => if k = key then some (now, value) else c.store k }

/-! ### Nearest index -/

/-- `nearest_index`: index of the time closest to `now`, i.e. Python
`min(range(len(times)), key=lambda i: abs(times[i] - now))` (first index wins
on ties, like Python `min`), with result `0` on the empty list. -/
def nearest_index (times : List Int) (now : Int) : Nat :=
  ((List.range times.length).argmin
    (fun i => (times.getD i 0 - now).natAbs)).getD 0

/-! ### Stormglass normalization -/

/-- One entry of `data["hours"]`: the raw ISO time string together with its
parsed instant (`datetime.fromisoformat(...).astimezone()`), and one
model-name → value mapping per quantity (a key missing from the JSON object
behaves like `h.get(..., {})`, i.e. like an empty `dict`). -/
structure SGHour where
  time_str : String
  time_parsed : Int
  waveHeight : JVal
  wavePeriod : JVal
  waveDirection : JVal
  swellHeight : JVal
  swellPeriod : JVal
  swellDirection : JVal
  windSpeed : JVal
  windDirection : JVal

/-- Normalized Stormglass point (the dict returned by
`pick_stormglass_point`). -/
structure SGPoint where
  time : String
  wave_height_m : Option ℚ
  wave_period_s : Option ℚ
  wave_direction_deg : Option ℚ
  swell_height_m : Option ℚ
  swell_period_s : Option ℚ
  swell_direction_deg : Option ℚ
  wind_speed_kmh : Option ℚ
  wind_direction_deg : Option ℚ
  source : String := "stormglass"

/-- `pick_stormglass_point`: empty hour list gives `None`; otherwise resolve
every quantity of the hour nearest to `now` through `choose`, converting wind
speed from m/s to km/h by the factor 3.6 when it is present. -/
def pick_stormglass_point (hours : List SGHour) (now : Int) : Option SGPoint :=
  match hours[nearest_index (hours.map SGHour.time_parsed) now]? with
  | none => none
  | some h =>
    some {
      time := h.time_str
      wave_height_m := choose h.waveHeight
      wave_period_s := choose h.wavePeriod
      wave_direction_deg := choose h.waveDirection
      swell_height_m := choose h.swellHeight
      swell_period_s := choose h.swellPeriod
      swell_direction_deg := choose h.swellDirection
      wind_speed_kmh := (choose h.windSpeed).map (fun v => v * 3.6)
      wind_direction_deg := choose h.windDirection }

/-! ### OpenWeather normalization -/

/-- The fields `pick_openweather_now` reads from the raw OpenWeather
response: `wind.speed` is kept raw (the code checks `isinstance(wind_ms,
(int, float))` on it), the remaining fields are already passed through
as-is. -/
structure OWRaw where
  wind_speed : JVal
  wind_deg : Option ℚ
  clouds_all : Option ℚ
  main_temp : Option ℚ
  rain_1h : Option ℚ

/-- Normalized current-weather point (the dict returned by
`pick_openweather_now`). -/
structure OWNow where
  wind_speed_kmh : Option ℚ
  wind_direction_deg : Option ℚ
  cloud_cover_pct : Option ℚ
  temp_c : Option ℚ
  rain_mm_1h : ℚ
  source : String := "openweather"

/-- `pick_openweather_now`: convert a numeric wind speed from m/s to km/h by
the factor 3.6 (`None` otherwise), default rainfall to 0.0. -/
def pick_openweather_now (data : OWRaw) : Option OWNow :=
  some {
    wind_speed_kmh :=
      match data.wind_speed with
      | JVal.num q => some (q * 3.6)
      | _ => none
    wind_direction_deg := data.wind_deg
    cloud_cover_pct := data.clouds_all
    temp_c := data.main_temp
    rain_mm_1h := data.rain_1h.getD 0 }

/-! ### Open-Meteo point and the merged record -/

/-- Normalized Open-Meteo marine point (the dict returned by
`pick_open_meteo_point`). -/
structure OMPoint where
  time : String
  wave_height_m : Option ℚ
  wave_period_s : Option ℚ
  wave_direction_deg : Option ℚ
  wind_wave_height_m : Option ℚ
  wind_wave_period_s : Option ℚ
  wind_wave_direction_deg : Option ℚ
  source : String := "open-meteo"

/-- The merged dict built by `merge_forecast`.  Outer `Option`: the key is
present; inner `Option`: the value is not `None`. -/
structure MergedForecast where
  time : Option String := none
  wave_height_m : Option (Option ℚ) := none
  wave_period_s : Option (Option ℚ) := none
  wave_direction_deg : Option (Option ℚ) := none
  swell_height_m : Option (Option ℚ) := none
  swell_period_s : Option (Option ℚ) := none
  swell_direction_deg : Option (Option ℚ) := none
  wind_speed_kmh : Option (Option ℚ) := none
  wind_direction_deg : Option (Option ℚ) := none
  sources_waves : Option String := none
  sources_wind : Option String := none

/-- Reference-time part of `merge_forecast`: Stormglass time if present and
truthy (a non-empty string), else the Open-Meteo time under the same rule. -/
def mergeTime (om_point : Option OMPoint) (sg_point : Option SGPoint) :
    Option String :=
  match sg_point with
  | some s =>
    if s.time = "" then
      match om_point with
      | some o => if o.time = "" then none else some o.time
      | none => none
    else some s.time
  | none =>
    match om_point with
    | some o => if o.time = "" then none else some o.time
    | none => none

/-- Wind fallback of `merge_forecast`: the `elif` taking wind from the
Stormglass point when its wind speed is not `None`. -/
def windFromSg (base : MergedForecast) (sg_point : Option SGPoint) :
    MergedForecast :=
  match sg_point with
  | some s =>
    if s.wind_speed_kmh.isSome then
      { base with
        wind_speed_kmh := some s.wind_speed_kmh
        wind_direction_deg := some s.wind_direction_deg
        sources_wind := some "stormglass" }
    else base
  | none => base

/-- `merge_forecast`: waves/swell prefer Stormglass, else Open-Meteo (whose
wind-wave fields fill the swell slots); wind prefers OpenWeather (when its
wind speed is not `None`), else Stormglass. -/
def merge_forecast (om_point : Option OMPoint) (sg_point : Option SGPoint)
    (ow_now : Option OWNow) : MergedForecast :=
  let base : MergedForecast := { time := mergeTime om_point sg_point }
  let withWaves : MergedForecast :=
    match sg_point with
    | some s =>
      { base with
        wave_height_m := some s.wave_height_m
        wave_period_s := some s.wave_period_s
        wave_direction_deg := some s.wave_direction_deg
        swell_height_m := some s.swell_height_m
        swell_period_s := some s.swell_period_s
        swell_direction_deg := some s.swell_direction_deg
        sources_waves := some "stormglass" }
    | none =>
      match om_point with
      | some o =>
        { base with
          wave_height_m := some o.wave_height_m
          wave_period_s := some o.wave_period_s
          wave_direction_deg := some o.wave_direction_deg
          swell_height_m := some o.wind_wave_height_m
          swell_period_s := some o.wind_wave_period_s
          swell_direction_deg := some o.wind_wave_direction_deg
          sources_waves := some "open-meteo" }
      | none => base
  match ow_now with
  | some w =>
    if w.wind_speed_kmh.isSome then
      { withWaves with
        wind_speed_kmh := some w.wind_speed_kmh
        wind_direction_deg := some w.wind_direction_deg
        sources_wind := some "openweather" }
    else windFromSg withWaves sg_point
  | none => windFromSg withWaves sg_point

/-! ### Explanation generator -/

/-- Half-even ("banker") rounding, modelling the rounding used by Python
string formatting. -/
def roundHalfEven (q : ℚ) : Int :=
  if q - ⌊q⌋ < 1 / 2 then ⌊q⌋
  else if q - ⌊q⌋ > 1 / 2 then ⌊q⌋ + 1
  else if ⌊q⌋ % 2 = 0 then ⌊q⌋ else ⌊q⌋ + 1

/-- Python format with no decimal places. -/
def fmtFixed0 (q : ℚ) : String :=
  toString (roundHalfEven q)

/-- Python format with one decimal place. -/
def fmtFixed1 (q : ℚ) : String :=
  let n := roundHalfEven (q * 10)
  (if n < 0 then "-" else "") ++
    toString (n.natAbs / 10) ++ "." ++ toString (n.natAbs % 10)

/-- The interpolation of `d = merged.get("wind_direction_deg", 0)`: a missing
key defaults to `0`, a `None` value renders as Python `str(None)`. -/
def dirStr (x : Option (Option ℚ)) : String :=
  match x with
  | none => "0"
  | some none => "None"
  | some (some q) => toString q

/-- One numeric field read by `explain` via `merged.get(key, 0.0)`: a missing
key defaults; a key holding `None` makes the numeric format specifier raise,
modelled as `none`. -/
def getNumField (x : Option (Option ℚ)) (dflt : ℚ) : Option ℚ :=
  match x with
  | none => some dflt
  | some none => none
  | some (some q) => some q

/-- `explain`: the fixed Portuguese template per level.  Returns `none` when
Python would raise a `TypeError` formatting a `None` value. -/
def explain (level : String) (merged : MergedForecast) : Option String :=
  match getNumField merged.wave_height_m 0, getNumField merged.wave_period_s 0,
      getNumField merged.wind_speed_kmh 0 with
  | some h, some p, some w =>
    let d := dirStr merged.wind_direction_deg
    if level = "iniciante" then
      some ("O mar está com ~" ++ fmtFixed1 h ++ " m e período de " ++
        fmtFixed0 p ++ "s. Vento " ++ fmtFixed0 w ++ " km/h (" ++ d ++
        "°). Priorize período >10s e vento fraco.")
    else if level = "intermediario" then
      some ("Altura " ++ fmtFixed1 h ++ " m; Tp " ++ fmtFixed0 p ++
        "s; vento " ++ fmtFixed0 w ++ " km/h @" ++ d ++
        "°. Se o vento girar terral, melhora bastante.")
    else
      some ("Hs=" ++ fmtFixed1 h ++ " m, Tp=" ++ fmtFixed0 p ++ "s, W=" ++
        fmtFixed0 w ++ " km/h@" ++ d ++
        "°. Combine swell+vento na escolha do pico/horário.")
  | _, _, _ => none

/-! ### The /api/explain route -/

/-- ASCII lowercasing, modelling Python `str.lower()` on the inputs that
matter here (the recognized levels are plain ASCII). -/
def pyLower (s : String) : String :=
  String.mk (s.data.map Char.toLower)

/-- Python `request.args.get("level") or "iniciante"`: a missing parameter or
an empty (falsy) string falls back to the default. -/
def levelOrDefault (p : Option String) : String :=
  match p with
  | none => "iniciante"
  | some s => if s = "" then "iniciante" else s

/-- The recognized levels (the Python set literal). -/
def validLevels : List String := ["iniciante", "intermediario", "avancado"]

/-- Python truthiness of `merged.get("wave_height_m")`: a present, non-None,
non-zero value. -/
def waveTruthy (m : MergedForecast) : Bool :=
  match m.wave_height_m with
  | some (some q) => q != 0
  | _ => false

/-- The normalized adapter outcomes available to one request: what
`pick_open_meteo_point` / `pick_stormglass_point` / `pick_openweather_now`
produced from the (possibly failed) fetches, plus the opaque tide payload. -/
structure Adapters where
  om_point : Option OMPoint
  sg_point : Option SGPoint
  ow_now : Option OWNow
  tide : Option String

/-- Response of the route: a 400 error object, a 500 (an uncaught exception
while formatting), or the 200 payload with the fields of the returned JSON
object. -/
inductive ApiResponse where
  | badRequest (error : String)
  | internalError
  | ok (spot : String) (level : String) (time_ref : Option String)
      (merged : MergedForecast) (open_meteo : Option OMPoint)
      (stormglass : Option SGPoint) (openweather : Option OWNow)
      (tide : Option String) (explanation_pt : String)

/-- HTTP status of an `ApiResponse`. -/
def ApiResponse.statusCode : ApiResponse → Nat
  | .badRequest _ => 400
  | .internalError => 500
  | .ok _ _ _ _ _ _ _ _ _ => 200

/-- The `explanation_pt` field of a 200 response. -/
def ApiResponse.explanationOf : ApiResponse → Option String
  | .ok _ _ _ _ _ _ _ _ e => some e
  | _ => none

/-- The `merged` field of a 200 response. -/
def ApiResponse.mergedOf : ApiResponse → Option MergedForecast
  | .ok _ _ _ m _ _ _ _ _ => some m
  | _ => none

/-- The `level` field of a 200 response. -/
def ApiResponse.levelOf : ApiResponse → Option String
  | .ok _ l _ _ _ _ _ _ _ => some l
  | _ => none

/-- The upstream fetches issued on the happy path, in source order. -/
def fetchTrace : List String := ["open-meteo", "stormglass", "openweather", "tide"]

/-- `api_explain`: validate the level (lowercased, defaulted) against the
recognized set, returning 400 before touching any upstream adapter; then
merge the adapter points and attach either the formatted explanation or the
fixed insufficient-data sentence.  The second component lists the upstream
fetches performed. -/
def api_explain (levelParam : Option String) (ad : Adapters) :
    ApiResponse × List String :=
  let level := pyLower (levelOrDefault levelParam)
  if level ∈ validLevels then
    let om_point := ad.om_point
    let sg_point := ad.sg_point
    let ow_now := ad.ow_now
    let merged := merge_forecast om_point sg_point ow_now
    let tide := ad.tide
    if waveTruthy merged then
      match explain level merged with
      | some txt =>
        (ApiResponse.ok "Stella Maris, Salvador-BA" level merged.time merged
          om_point sg_point ow_now tide txt, fetchTrace)
      | none => (ApiResponse.internalError, fetchTrace)
    else
      (ApiResponse.ok "Stella Maris, Salvador-BA" level merged.time merged
        om_point sg_point ow_now tide "Sem dados suficientes no momento.",
        fetchTrace)
  else
    (ApiResponse.badRequest "level inválido. Use: iniciante|intermediario|avancado", [])

/-! ### Concrete sample data used by the closed instances below -/

/-- Sample normalized Stormglass point. -/
def sgEx : SGPoint :=
  { time := "2024-01-01T00:00:00+00:00", wave_height_m := some 2,
    wave_period_s := some 9, wave_direction_deg := some 90,
    swell_height_m := some 1, swell_period_s := some 11,
    swell_direction_deg := some 100, wind_speed_kmh := some 20,
    wind_direction_deg := some 180 }

/-- Sample normalized Open-Meteo point. -/
def omEx : OMPoint :=
  { time := "2024-01-01T00:00", wave_height_m := some 1,
    wave_period_s := some 7, wave_direction_deg := some 80,
    wind_wave_height_m := some 3, wind_wave_period_s := some 5,
    wind_wave_direction_deg := some 60 }

/-- Sample current-weather point whose wind speed is present but zero. -/
def owZero : OWNow :=
  { wind_speed_kmh := some 0, wind_direction_deg := some 90,
    cloud_cover_pct := none, temp_c := none, rain_mm_1h := 0 }

/-- Adapter outcomes with every upstream source failed. -/
def adNone : Adapters := ⟨none, none, none, none⟩

/-- Sample raw Stormglass hour. -/
def hEx : SGHour :=
  { time_str := "2024-01-01T00:00:00+00:00", time_parsed := 0,
    waveHeight := JVal.dict [("noaa", JVal.num 2)],
    wavePeriod := JVal.dict [("sg", JVal.num 9)],
    waveDirection := JVal.dict [],
    swellHeight := JVal.dict [("noaa", JVal.num 1)],
    swellPeriod := JVal.dict [],
    swellDirection := JVal.dict [],
    windSpeed := JVal.dict [("noaa", JVal.num 5)],
    windDirection := JVal.dict [("noaa", JVal.num 180)] }

/-! ## Helper lemmas -/

/-- In a mapping with unique keys, a key determines its value. -/
theorem keys_nodup_eq {d : List (String × JVal)} (hn : (d.map Prod.fst).Nodup)
    {k : String} {v w : JVal} (hv : (k, v) ∈ d) (hw : (k, w) ∈ d) : v = w := by
  induction d with
  | nil => cases hv
  | cons a rest ih =>
    simp only [List.map_cons, List.nodup_cons] at hn
    rcases List.mem_cons.mp hv with hv1 | hv1 <;>
      rcases List.mem_cons.mp hw with hw1 | hw1
    · subst hv1; injection hw1 with h1 h2; exact h2.symm
    · subst hv1
      exact absurd (List.mem_map_of_mem Prod.fst hw1) (by simpa using hn.1)
    · subst hw1
      exact absurd (List.mem_map_of_mem Prod.fst hv1) (by simpa using hn.1)
    · exact ih hn.2 hv1 hw1

/-- With unique keys, membership gives the lookup result. -/
theorem lookupKey_eq_some_of_mem {d : List (String × JVal)}
    (hn : (d.map Prod.fst).Nodup) {k : String} {v : JVal} (hv : (k, v) ∈ d) :
    lookupKey d k = some v := by
  obtain ⟨⟨k1, v1⟩, hkv⟩ : ∃ kv, d.find? (fun kv => kv.1 == k) = some kv := by
    have hs : (d.find? (fun kv => kv.1 == k)).isSome := by
      rw [List.find?_isSome]; exact ⟨(k, v), hv, by simp⟩
    exact Option.isSome_iff_exists.mp hs
  have hmem := List.mem_of_find?_eq_some hkv
  have hk1 : k1 = k := by simpa using List.find?_some hkv
  subst hk1
  have hv1 : v1 = v := keys_nodup_eq hn hmem hv
  subst hv1
  simp [lookupKey, hkv]

/-- A successful lookup is membership. -/
theorem lookupKey_mem_of_eq_some {d : List (String × JVal)} {k : String}
    {v : JVal} (h : lookupKey d k = some v) : (k, v) ∈ d := by
  simp only [lookupKey, Option.map_eq_some'] at h
  obtain ⟨⟨k1, v1⟩, hfind, hsnd⟩ := h
  have hk : k1 = k := by simpa using List.find?_some hfind
  subst hk
  cases hsnd
  exact List.mem_of_find?_eq_some hfind

/-- Failed lookups are exactly "the key is absent". -/
theorem lookupKey_eq_none_iff {d : List (String × JVal)} {k : String} :
    lookupKey d k = none ↔ ∀ kv ∈ d, kv.1 ≠ k := by
  simp [lookupKey, List.find?_eq_none]

/-- With unique keys, lookups are invariant under permutation of the
mapping. -/
theorem lookupKey_perm {d₁ d₂ : List (String × JVal)} (hp : d₁.Perm d₂)
    (hn : (d₁.map Prod.fst).Nodup) (k : String) :
    lookupKey d₁ k = lookupKey d₂ k := by
  have hn₂ : (d₂.map Prod.fst).Nodup := (hp.map Prod.fst).nodup_iff.mp hn
  cases h : lookupKey d₁ k with
  | some v =>
    exact (lookupKey_eq_some_of_mem hn₂ (hp.subset (lookupKey_mem_of_eq_some h))).symm
  | none =>
    symm
    rw [lookupKey_eq_none_iff]
    intro kv hkv
    exact lookupKey_eq_none_iff.mp h kv (hp.symm.subset hkv)

/-- The preference loop of `choose` only looks at lookups. -/
theorem choosePref_congr {d₁ d₂ : List (String × JVal)}
    (h : ∀ k, lookupKey d₁ k = lookupKey d₂ k) :
    ∀ ps : List String, choosePref d₁ ps = choosePref d₂ ps
  | [] => rfl
  | p :: ps => by
    have hrec := choosePref_congr h ps
    simp only [choosePref, h p]
    cases lookupKey d₂ p with
    | none => exact hrec
    | some v =>
      cases v with
      | num q => rfl
      | str s => exact hrec
      | dict dd => exact hrec
      | other => exact hrec

/-- If some preferred model resolves to a number, the preference loop
succeeds. -/
theorem choosePref_isSome_of_mem {d : List (String × JVal)} {ps : List String}
    {p : String} {q : ℚ} (hp : p ∈ ps)
    (hq : lookupKey d p = some (JVal.num q)) :
    (choosePref d ps).isSome = true := by
  induction ps with
  | nil => cases hp
  | cons p1 ps ih =>
    rcases List.mem_cons.mp hp with rfl | hmem
    · simp [choosePref, hq]
    · simp only [choosePref]
      cases lookupKey d p1 with
      | none => exact ih hmem
      | some v =>
        cases v with
        | num q2 => rfl
        | str s => exact ih hmem
        | dict dd => exact ih hmem
        | other => exact ih hmem

/-- The preference loop is a `findSome?` over the preference list. -/
theorem choosePref_eq_findSome (d : List (String × JVal)) :
    ∀ ps : List String, choosePref d ps = ps.findSome? (fun p =>
      match lookupKey d p with
      | some (JVal.num q) => some q
      | _ => none)
  | [] => rfl
  | p :: ps => by
    rw [List.findSome?_cons]
    cases h : lookupKey d p with
    | none => simp [choosePref, h, choosePref_eq_findSome d ps]
    | some v => cases v <;> simp [choosePref, h, choosePref_eq_findSome d ps]

/-- The fallback loop is a `findSome?` over the values. -/
theorem firstNumVal_eq_findSome :
    ∀ d : List (String × JVal), firstNumVal d =
      (d.map Prod.snd).findSome? (fun v =>
        match v with
        | JVal.num q => some q
        | _ => none)
  | [] => rfl
  | (k, v) :: rest => by
    cases v <;>
      simp [firstNumVal, List.findSome?_cons, firstNumVal_eq_findSome rest]

/-- `choose` coincides with the specification-side resolution rule. -/
theorem choose_dict_eq_spec (d : List (String × JVal)) :
    choose (JVal.dict d) = chooseSpecModel d := by
  simp only [choose, chooseSpecModel, choosePref_eq_findSome,
    firstNumVal_eq_findSome]

/-! ## Claim theorems -/

/-- Claim C3: for every key, payload, TTL value and elapsed time `e ≥ 0`, a
`get` performed `e` after a `set` of the key returns the stored payload iff
`e ≤ ttl`; when `e > ttl` it returns absent and also removes the entry from
the store; and a `get` on a never-set key returns absent. -/
theorem ttl_cache_get_set_ttl {α : Type} (c : TTLCache α) (key : String)
    (value : α) (t0 e : Int) (he : 0 ≤ e) :
    (((c.set key value t0).get key (t0 + e)).1 = some value ↔ e ≤ c.ttl) ∧
    (c.ttl < e →
      ((c.set key value t0).get key (t0 + e)).1 = none ∧
      (((c.set key value t0).get key (t0 + e)).2).store key = none) ∧
    ((TTLCache.init α c.ttl).get key (t0 + e)).1 = none := by
  refine ⟨?_, fun hlt => ⟨?_, ?_⟩, ?_⟩
  · simp [TTLCache.get, TTLCache.set]
    split_ifs with h
    · constructor
      · intro hf; exact absurd hf (by simp)
      · intro hle; omega
    · constructor
      · intro _; omega
      · intro _; rfl
  · simp [TTLCache.get, TTLCache.set]
    rw [if_pos hlt]
  · simp [TTLCache.get, TTLCache.set]
    rw [if_pos hlt]
    simp
  · simp [TTLCache.get, TTLCache.init]

/-- Claim C3 closed instance: on a fresh cache with TTL 180, a value set at
time 0 is still returned 5 units later. -/
theorem ttl_cache_get_set_ttl_witness :
    ((((TTLCache.init Int 180).set "k" 42 0).get "k" (0 + 5)).1 = some 42) :=
  ((ttl_cache_get_set_ttl (TTLCache.init Int 180) "k" 42 0 5 (by decide)).1).mpr
    (by decide)

/-- Claim C4 (as frozen) is false: on the unsorted list `[1, -1]` with
reference instant `0`, both indices attain the minimal absolute difference,
`nearest_index` returns index `0`, yet index `0`'s timestamp is not the
temporally earliest among the minimizers (index `1` holds `-1 < 1`). -/
theorem nearest_index_tie_not_earliest :
    nearest_index [1, -1] 0 = 0 ∧
    (([1, -1] : List Int).getD 1 0 - 0).natAbs =
      (([1, -1] : List Int).getD (nearest_index [1, -1] 0) 0 - 0).natAbs ∧
    ¬ (([1, -1] : List Int).getD (nearest_index [1, -1] 0) 0 ≤
        ([1, -1] : List Int).getD 1 0) := by
  decide

/-- Claim C4 (amended): for a non-empty list of timestamps, `nearest_index`
returns an in-range index whose absolute difference from the reference is
minimal, and on ties it returns the lowest such index (not necessarily the
temporally earliest timestamp). -/
theorem nearest_index_nearest (times : List Int) (now : Int)
    (hne : times ≠ []) :
    nearest_index times now < times.length ∧
    (∀ j, j < times.length →
      (times.getD (nearest_index times now) 0 - now).natAbs ≤
        (times.getD j 0 - now).natAbs) ∧
    (∀ j, j < times.length →
      (times.getD j 0 - now).natAbs =
        (times.getD (nearest_index times now) 0 - now).natAbs →
      nearest_index times now ≤ j) := by
  have hlen : 0 < times.length := List.length_pos.mpr hne
  obtain ⟨m, hm⟩ : ∃ m, (List.range times.length).argmin
      (fun i => (times.getD i 0 - now).natAbs) = some m := by
    cases h : (List.range times.length).argmin
        (fun i => (times.getD i 0 - now).natAbs) with
    | none =>
      exfalso
      have := List.argmin_eq_none.mp h
      rw [List.range_eq_nil] at this
      omega
    | some m => exact ⟨m, rfl⟩
  have hm2 : m ∈ (List.range times.length).argmin
      (fun i => (times.getD i 0 - now).natAbs) := Option.mem_def.mpr hm
  have hmlt : m < times.length := List.mem_range.mp (List.argmin_mem hm2)
  have hni : nearest_index times now = m := by
    simp only [nearest_index, hm, Option.getD_some]
  refine ⟨hni ▸ hmlt, ?_, ?_⟩
  · intro j hj
    rw [hni]
    exact List.le_of_mem_argmin (f := fun i => (times.getD i 0 - now).natAbs)
      (List.mem_range.mpr hj) hm2
  · intro j hj heq
    rw [hni] at heq ⊢
    have hidx := List.index_of_argmin (f := fun i => (times.getD i 0 - now).natAbs)
      hm2 (List.mem_range.mpr hj) (le_of_eq heq)
    have h1 : (List.range times.length).indexOf m = m := by
      have := List.indexOf_getElem (List.nodup_range times.length) m
        (by simpa using hmlt)
      simpa using this
    have h2 : (List.range times.length).indexOf j = j := by
      have := List.indexOf_getElem (List.nodup_range times.length) j
        (by simpa using hj)
      simpa using this
    rw [h1, h2] at hidx
    exact hidx

/-- Claim C4 closed instance: on `[3, 10, 4]` with reference `5`, the chosen
index is in range, and it is index 2 (whose distance 1 is minimal). -/
theorem nearest_index_nearest_witness :
    nearest_index [3, 10, 4] 5 < ([3, 10, 4] : List Int).length ∧
    nearest_index [3, 10, 4] 5 = 2 :=
  ⟨(nearest_index_nearest [3, 10, 4] 5 (by decide)).1, by decide⟩

/-- Claim C5: `choose` realizes the model-preference rule: it agrees with the
specification-side resolution (highest-priority preferred model with a
numeric value, else first numeric value in mapping order, else absent), and
whenever some preferred model has a numeric value the result is independent
of the mapping's insertion order. -/
theorem choose_preferred_models :
    (∀ d : List (String × JVal), choose (JVal.dict d) = chooseSpecModel d) ∧
    (∀ d₁ d₂ : List (String × JVal), d₁.Perm d₂ →
      (d₁.map Prod.fst).Nodup →
      (∃ p ∈ prefModels, ∃ q : ℚ, lookupKey d₁ p = some (JVal.num q)) →
      choose (JVal.dict d₁) = choose (JVal.dict d₂)) := by
  refine ⟨choose_dict_eq_spec, ?_⟩
  rintro d₁ d₂ hp hn ⟨p, hpm, q, hq⟩
  have hl := lookupKey_perm hp hn
  have hcp : choosePref d₁ prefModels = choosePref d₂ prefModels :=
    choosePref_congr hl prefModels
  have hs : (choosePref d₁ prefModels).isSome = true :=
    choosePref_isSome_of_mem hpm hq
  cases hcc : choosePref d₁ prefModels with
  | none => rw [hcc] at hs; cases hs
  | some qq => simp [choose, hcc, ← hcp]

/-- Claim C5 closed instance: with the preferred model "noaa" present, the
two insertion orders of the same mapping resolve identically. -/
theorem choose_preferred_models_witness :
    choose (JVal.dict [("x", JVal.num 7), ("noaa", JVal.num 2)]) =
      choose (JVal.dict [("noaa", JVal.num 2), ("x", JVal.num 7)]) :=
  choose_preferred_models.2 _ _
    (List.Perm.swap ("noaa", JVal.num 2) ("x", JVal.num 7) [])
    (by decide) ⟨"noaa", by decide, 2, by rfl⟩

/-- Claim C1: the wave/swell group of `merge_forecast` is a strict
waterfall: with a Stormglass point the wave and swell fields are copied
verbatim and provenance is "stormglass"; without it but with an Open-Meteo
point the wave fields are copied and the wind-wave fields fill the swell
slots with provenance "open-meteo"; with neither, the whole group and its
provenance key are absent. -/
theorem merge_waves_waterfall (om_point : Option OMPoint)
    (sg_point : Option SGPoint) (ow_now : Option OWNow) :
    (∀ s, sg_point = some s →
      (merge_forecast om_point sg_point ow_now).wave_height_m = some s.wave_height_m ∧
      (merge_forecast om_point sg_point ow_now).wave_period_s = some s.wave_period_s ∧
      (merge_forecast om_point sg_point ow_now).wave_direction_deg = some s.wave_direction_deg ∧
      (merge_forecast om_point sg_point ow_now).swell_height_m = some s.swell_height_m ∧
      (merge_forecast om_point sg_point ow_now).swell_period_s = some s.swell_period_s ∧
      (merge_forecast om_point sg_point ow_now).swell_direction_deg = some s.swell_direction_deg ∧
      (merge_forecast om_point sg_point ow_now).sources_waves = some "stormglass") ∧
    (∀ o, sg_point = none → om_point = some o →
      (merge_forecast om_point sg_point ow_now).wave_height_m = some o.wave_height_m ∧
      (merge_forecast om_point sg_point ow_now).wave_period_s = some o.wave_period_s ∧
      (merge_forecast om_point sg_point ow_now).wave_direction_deg = some o.wave_direction_deg ∧
      (merge_forecast om_point sg_point ow_now).swell_height_m = some o.wind_wave_height_m ∧
      (merge_forecast om_point sg_point ow_now).swell_period_s = some o.wind_wave_period_s ∧
      (merge_forecast om_point sg_point ow_now).swell_direction_deg = some o.wind_wave_direction_deg ∧
      (merge_forecast om_point sg_point ow_now).sources_waves = some "open-meteo") ∧
    (sg_point = none → om_point = none →
      (merge_forecast om_point sg_point ow_now).wave_height_m = none ∧
      (merge_forecast om_point sg_point ow_now).wave_period_s = none ∧
      (merge_forecast om_point sg_point ow_now).wave_direction_deg = none ∧
      (merge_forecast om_point sg_point ow_now).swell_height_m = none ∧
      (merge_forecast om_point sg_point ow_now).swell_period_s = none ∧
      (merge_forecast om_point sg_point ow_now).swell_direction_deg = none ∧
      (merge_forecast om_point sg_point ow_now).sources_waves = none) := by
  refine ⟨?_, ?_, ?_⟩
  · rintro s rfl
    rcases ow_now with _ | w <;> simp only [merge_forecast, windFromSg] <;>
      (try split_ifs) <;> simp_all
  · rintro o rfl rfl
    rcases ow_now with _ | w <;> simp only [merge_forecast, windFromSg] <;>
      (try split_ifs) <;> simp_all
  · rintro rfl rfl
    rcases ow_now with _ | w <;> simp only [merge_forecast, windFromSg] <;>
      (try split_ifs) <;> simp_all

/-- Claim C1 closed instance: with both points present the Stormglass fields
win and provenance is "stormglass". -/
theorem merge_waves_waterfall_witness :
    (merge_forecast (some omEx) (some sgEx) none).wave_height_m = some sgEx.wave_height_m ∧
    (merge_forecast (some omEx) (some sgEx) none).wave_period_s = some sgEx.wave_period_s ∧
    (merge_forecast (some omEx) (some sgEx) none).wave_direction_deg = some sgEx.wave_direction_deg ∧
    (merge_forecast (some omEx) (some sgEx) none).swell_height_m = some sgEx.swell_height_m ∧
    (merge_forecast (some omEx) (some sgEx) none).swell_period_s = some sgEx.swell_period_s ∧
    (merge_forecast (some omEx) (some sgEx) none).swell_direction_deg = some sgEx.swell_direction_deg ∧
    (merge_forecast (some omEx) (some sgEx) none).sources_waves = some "stormglass" :=
  (merge_waves_waterfall (some omEx) (some sgEx) none).1 sgEx rfl

/-- Claim C2: the wind group of `merge_forecast` is a strict waterfall: a
present (possibly zero) OpenWeather wind speed wins with provenance
"openweather"; otherwise a present Stormglass wind speed wins with
provenance "stormglass"; otherwise the group and its provenance key are
absent. -/
theorem merge_wind_waterfall (om_point : Option OMPoint)
    (sg_point : Option SGPoint) (ow_now : Option OWNow) :
    (∀ w, ow_now = some w → w.wind_speed_kmh.isSome = true →
      (merge_forecast om_point sg_point ow_now).wind_speed_kmh = some w.wind_speed_kmh ∧
      (merge_forecast om_point sg_point ow_now).wind_direction_deg = some w.wind_direction_deg ∧
      (merge_forecast om_point sg_point ow_now).sources_wind = some "openweather") ∧
    (∀ s, (ow_now = none ∨ ∃ w, ow_now = some w ∧ w.wind_speed_kmh = none) →
      sg_point = some s → s.wind_speed_kmh.isSome = true →
      (merge_forecast om_point sg_point ow_now).wind_speed_kmh = some s.wind_speed_kmh ∧
      (merge_forecast om_point sg_point ow_now).wind_direction_deg = some s.wind_direction_deg ∧
      (merge_forecast om_point sg_point ow_now).sources_wind = some "stormglass") ∧
    ((ow_now = none ∨ ∃ w, ow_now = some w ∧ w.wind_speed_kmh = none) →
     (sg_point = none ∨ ∃ s, sg_point = some s ∧ s.wind_speed_kmh = none) →
      (merge_forecast om_point sg_point ow_now).wind_speed_kmh = none ∧
      (merge_forecast om_point sg_point ow_now).wind_direction_deg = none ∧
      (merge_forecast om_point sg_point ow_now).sources_wind = none) := by
  refine ⟨?_, ?_, ?_⟩
  · rintro w rfl hw
    rcases sg_point with _ | s <;> rcases om_point with _ | o <;>
      simp only [merge_forecast, windFromSg] <;> (try split_ifs) <;> simp_all
  · rintro s (rfl | ⟨w, rfl, hw⟩) rfl hs <;> rcases om_point with _ | o <;>
      simp only [merge_forecast, windFromSg] <;> (try split_ifs) <;> simp_all
  · rintro (rfl | ⟨w, rfl, hw⟩) (rfl | ⟨s, rfl, hs⟩) <;>
      rcases om_point with _ | o <;>
      simp only [merge_forecast, windFromSg] <;> (try split_ifs) <;> simp_all

/-- Claim C2 closed instance: a zero OpenWeather wind speed still counts as
present, winning over a present Stormglass wind speed. -/
theorem merge_wind_waterfall_witness :
    (merge_forecast none (some sgEx) (some owZero)).wind_speed_kmh = some owZero.wind_speed_kmh ∧
    (merge_forecast none (some sgEx) (some owZero)).wind_direction_deg = some owZero.wind_direction_deg ∧
    (merge_forecast none (some sgEx) (some owZero)).sources_wind = some "openweather" :=
  (merge_wind_waterfall none (some sgEx) (some owZero)).1 owZero rfl (by decide)

/-- Claim C8: provenance invariant of `merge_forecast`: any populated
(present, non-None) wave-group or wind-group field implies the matching
provenance entry exists; and when no source supplies a group its fields and
its provenance key are absent. -/
theorem merge_provenance_invariant (om_point : Option OMPoint)
    (sg_point : Option SGPoint) (ow_now : Option OWNow) (m : MergedForecast)
    (hm : m = merge_forecast om_point sg_point ow_now) :
    (((∃ q, m.wave_height_m = some (some q)) ∨
      (∃ q, m.wave_period_s = some (some q)) ∨
      (∃ q, m.wave_direction_deg = some (some q)) ∨
      (∃ q, m.swell_height_m = some (some q)) ∨
      (∃ q, m.swell_period_s = some (some q)) ∨
      (∃ q, m.swell_direction_deg = some (some q))) →
      m.sources_waves.isSome = true) ∧
    (((∃ q, m.wind_speed_kmh = some (some q)) ∨
      (∃ q, m.wind_direction_deg = some (some q))) →
      m.sources_wind.isSome = true) ∧
    (sg_point = none → om_point = none →
      m.wave_height_m = none ∧ m.wave_period_s = none ∧
      m.wave_direction_deg = none ∧ m.swell_height_m = none ∧
      m.swell_period_s = none ∧ m.swell_direction_deg = none ∧
      m.sources_waves = none) ∧
    ((ow_now = none ∨ ∃ w, ow_now = some w ∧ w.wind_speed_kmh = none) →
     (sg_point = none ∨ ∃ s, sg_point = some s ∧ s.wind_speed_kmh = none) →
      m.wind_speed_kmh = none ∧ m.wind_direction_deg = none ∧
      m.sources_wind = none) := by
  subst hm
  refine ⟨?_, ?_, ?_, ?_⟩
  · intro hpop
    rcases sg_point with _ | s <;> rcases om_point with _ | o <;>
      rcases ow_now with _ | w <;>
      simp only [merge_forecast, windFromSg] at hpop ⊢ <;>
      (try split_ifs) <;> simp_all
  · intro hpop
    rcases sg_point with _ | s <;> rcases om_point with _ | o <;>
      rcases ow_now with _ | w <;>
      simp only [merge_forecast, windFromSg] at hpop ⊢ <;>
      (try split_ifs at hpop ⊢) <;> simp_all
  · rintro rfl rfl
    rcases ow_now with _ | w <;> simp only [merge_forecast, windFromSg] <;>
      (try split_ifs) <;> simp_all
  · rintro (rfl | ⟨w, rfl, hw⟩) (rfl | ⟨s, rfl, hs⟩) <;>
      rcases om_point with _ | o <;>
      simp only [merge_forecast, windFromSg] <;> (try split_ifs) <;> simp_all

/-- Claim C8 closed instance: a populated Stormglass wave height yields a
wave-group provenance entry. -/
theorem merge_provenance_invariant_witness :
    ((merge_forecast none (some sgEx) none).sources_waves).isSome = true :=
  (merge_provenance_invariant none (some sgEx) none _ rfl).1 (Or.inl ⟨2, rfl⟩)

/-- Claim C9: in both normalizations a present wind speed in m/s is
converted to km/h by multiplying by exactly 3.6, and an absent wind speed
stays absent. -/
theorem wind_speed_unit_conversion :
    (∀ (hours : List SGHour) (now : Int) (h : SGHour),
      hours[nearest_index (hours.map SGHour.time_parsed) now]? = some h →
      ∃ pt, pick_stormglass_point hours now = some pt ∧
        (∀ v : ℚ, choose h.windSpeed = some v →
          pt.wind_speed_kmh = some (v * 3.6)) ∧
        (choose h.windSpeed = none → pt.wind_speed_kmh = none)) ∧
    (∀ data : OWRaw, ∃ pt, pick_openweather_now data = some pt ∧
      (∀ v : ℚ, data.wind_speed = JVal.num v →
        pt.wind_speed_kmh = some (v * 3.6)) ∧
      ((∀ v : ℚ, data.wind_speed ≠ JVal.num v) →
        pt.wind_speed_kmh = none)) := by
  constructor
  · intro hours now h hh
    cases hp : pick_stormglass_point hours now with
    | none =>
      rw [pick_stormglass_point, hh] at hp
      cases hp
    | some pt =>
      refine ⟨pt, rfl, ?_, ?_⟩ <;>
      · rw [pick_stormglass_point, hh] at hp
        cases hp
        intro hv
        first
        | (intro hv2; simp [hv2])
        | simp [hv]
  · intro data
    refine ⟨_, rfl, ?_, ?_⟩
    · intro v hv
      simp [pick_openweather_now, hv]
    · intro hv
      cases hd : data.wind_speed with
      | num q => exact absurd hd (hv q)
      | str s2 => simp [pick_openweather_now, hd]
      | dict dd => simp [pick_openweather_now, hd]
      | other => simp [pick_openweather_now, hd]

/-- Claim C9 closed instance: a Stormglass hour whose wind speed resolves to
5 m/s normalizes to a wind speed of 5 × 3.6 = 18 km/h. -/
theorem wind_speed_unit_conversion_witness :
    (choose hEx.windSpeed = some 5 ∧ (5 : ℚ) * 3.6 = 18) ∧
    (∃ pt, pick_stormglass_point [hEx] 0 = some pt ∧
      (∀ v : ℚ, choose hEx.windSpeed = some v →
        pt.wind_speed_kmh = some (v * 3.6)) ∧
      (choose hEx.windSpeed = none → pt.wind_speed_kmh = none)) :=
  ⟨⟨by decide, by norm_num⟩, wind_speed_unit_conversion.1 [hEx] 0 hEx rfl⟩

/-- Claim C6: a supplied, non-empty level value whose lowercase form is not
one of the recognized values makes the handler return the 400 error object,
with an empty upstream-fetch trace (no adapter call attempted). -/
theorem api_explain_invalid_level (s : String) (ad : Adapters)
    (hne : s ≠ "") (hinv : pyLower s ∉ validLevels) :
    api_explain (some s) ad =
      (ApiResponse.badRequest
        "level inválido. Use: iniciante|intermediario|avancado", []) ∧
    ((api_explain (some s) ad).1).statusCode = 400 := by
  have h1 : levelOrDefault (some s) = s := by simp [levelOrDefault, hne]
  constructor <;> simp [api_explain, h1, hinv, ApiResponse.statusCode]

/-- Claim C6 closed instance: `level=expert` yields the 400 error object and
no upstream fetch. -/
theorem api_explain_invalid_level_witness :
    api_explain (some "expert") adNone =
      (ApiResponse.badRequest
        "level inválido. Use: iniciante|intermediario|avancado", []) ∧
    ((api_explain (some "expert") adNone).1).statusCode = 400 :=
  api_explain_invalid_level "expert" adNone (by decide) (by decide)

/-- Claim C7: with a valid level and every adapter absent, the handler still
returns 200, with a merged record holding no wave-group and no wind-group
keys and with the fixed insufficient-data sentence; and in general, whenever
the merged wave height is absent or zero-equivalent, the explanation is that
fixed sentence. -/
theorem api_explain_insufficient_data :
    (∀ s : String, pyLower s ∈ validLevels →
      api_explain (some s) adNone =
        (ApiResponse.ok "Stella Maris, Salvador-BA" (pyLower s) none {} none
          none none none "Sem dados suficientes no momento.", fetchTrace)) ∧
    (∀ (lp : Option String) (ad : Adapters),
      pyLower (levelOrDefault lp) ∈ validLevels →
      waveTruthy (merge_forecast ad.om_point ad.sg_point ad.ow_now) = false →
      ((api_explain lp ad).1).statusCode = 200 ∧
      ((api_explain lp ad).1).explanationOf =
        some "Sem dados suficientes no momento.") := by
  constructor
  · intro s hs
    have hne : s ≠ "" := by rintro rfl; revert hs; decide
    have h1 : levelOrDefault (some s) = s := by simp [levelOrDefault, hne]
    simp [api_explain, h1, hs, adNone, merge_forecast, windFromSg, mergeTime,
      waveTruthy]
  · intro lp ad hv hw
    constructor <;>
      simp [api_explain, hv, hw, ApiResponse.statusCode,
        ApiResponse.explanationOf]

/-- Claim C7 closed instance: a valid level with all adapters failed gives
the 200 response with the empty merged record and the fixed sentence. -/
theorem api_explain_insufficient_data_witness :
    pyLower "INICIANTE" ∈ validLevels ∧
    api_explain (some "INICIANTE") adNone =
      (ApiResponse.ok "Stella Maris, Salvador-BA" (pyLower "INICIANTE") none {}
        none none none none "Sem dados suficientes no momento.", fetchTrace) :=
  ⟨by decide, api_explain_insufficient_data.1 "INICIANTE" (by decide)⟩

/-- Claim C10: with the level parameter absent the request is not rejected:
it behaves exactly as `level=iniciante`; and validation is case-insensitive:
any spelling whose lowercase form is recognized is accepted (never 400) and
the level used is the lowercased one. -/
theorem api_explain_level_default_and_case :
    (∀ ad : Adapters, api_explain none ad = api_explain (some "iniciante") ad) ∧
    (∀ ad : Adapters, ((api_explain none ad).1).statusCode ≠ 400) ∧
    (∀ (s : String) (ad : Adapters), pyLower s ∈ validLevels →
      ((api_explain (some s) ad).1).statusCode ≠ 400 ∧
      (∀ l, ((api_explain (some s) ad).1).levelOf = some l →
        l = pyLower s)) := by
  refine ⟨?_, ?_, ?_⟩
  · intro ad
    simp only [api_explain,
      show levelOrDefault none = levelOrDefault (some "iniciante") from by decide]
  · intro ad
    simp only [api_explain]
    rw [if_pos (show pyLower (levelOrDefault none) ∈ validLevels from by decide)]
    split
    · split <;> simp [ApiResponse.statusCode]
    · simp [ApiResponse.statusCode]
  · intro s ad hs
    have hne : s ≠ "" := by rintro rfl; revert hs; decide
    have h1 : levelOrDefault (some s) = s := by simp [levelOrDefault, hne]
    constructor
    · simp only [api_explain, h1]
      rw [if_pos hs]
      split
      · split <;> simp [ApiResponse.statusCode]
      · simp [ApiResponse.statusCode]
    · intro l
      simp only [api_explain, h1]
      rw [if_pos hs]
      split
      · split <;> intro h <;> simp [ApiResponse.levelOf] at h <;> simp [h]
      · intro h
        simp [ApiResponse.levelOf] at h
        simp [h]

/-- Claim C10 closed instance: the uppercase spelling "AVANCADO" is accepted
and resolves to level "avancado". -/
theorem api_explain_level_default_and_case_witness :
    pyLower "AVANCADO" ∈ validLevels ∧
    (((api_explain (some "AVANCADO") adNone).1).statusCode ≠ 400 ∧
     (∀ l, ((api_explain (some "AVANCADO") adNone).1).levelOf = some l →
       l = pyLower "AVANCADO")) :=
  ⟨by decide, api_explain_level_default_and_case.2.2 "AVANCADO" adNone (by decide)⟩

end ExplicaSurf
